import Mathlib

/-
  Verification of the Dockerfile-generation script (Dockerfile.py).

  The script reads a VERSION file, renders a Jinja2 template once per
  selected (OS, architecture) configuration record into files named
  "Dockerfile_<arch>", and then invokes `docker build` (and optionally
  `docker tag`) once per element of the cross-product of the --os and
  --arch command-line lists.

  Shallow embedding: pure functions over explicit data.  The external
  world (the VERSION file, the template file, the return codes and the
  standard output of external commands) is an explicit `Env` record.
-/

namespace DockerfilePy

/-- One entry of the `images` configuration table: the keys `base`,
`arch` and `s6arch` of the Python dict literals (Dockerfile.py
lines 52-92). -/
structure ImageRecord where
  base : String
  arch : String
  s6arch : String
deriving DecidableEq, Repr

/-- The `base_vars` dict (Dockerfile.py lines 29-33), in insertion
order. -/
def base_vars : List (String × String) :=
  [("name", "pihole/pihole"),
   ("maintainer", "adam@diginc.us"),
   ("s6_version", "v1.22.1.0")]

/-- The `os_base_vars` dict (Dockerfile.py lines 35-44) as a lookup by
OS name.  In the script a key other than "debian"/"alpine" would raise
KeyError; the function is only ever applied to keys of `images`, which
are exactly these two, so the `[]` branch is unreachable in the
program. -/
def os_base_vars (osName : String) : List (String × String) :=
  if osName = "debian" then
    [("php_env_config", "/etc/lighttpd/conf-enabled/15-fastcgi-php.conf"),
     ("php_error_log", "/var/log/lighttpd/error.log")]
  else if osName = "alpine" then
    [("php_env_config", "/etc/php5/fpm.d/envs.conf"),
     ("php_error_log", "/var/log/nginx/error.log")]
  else []

/-- The `images` dict (Dockerfile.py lines 52-92) as an association
list, preserving Python dict insertion order ("debian" first, then
"alpine"). -/
def images : List (String × List ImageRecord) :=
  [("debian",
    [⟨"pihole/debian-base:latest", "amd64", "amd64"⟩,
     ⟨"multiarch/debian-debootstrap:armel-stretch-slim", "armel", "arm"⟩,
     ⟨"multiarch/debian-debootstrap:armhf-stretch-slim", "armhf", "arm"⟩,
     ⟨"multiarch/debian-debootstrap:arm64-stretch-slim", "arm64", "aarch64"⟩]),
   ("alpine",
    [⟨"alpine:edge", "amd64", "amd64"⟩,
     ⟨"multiarch/alpine:armhf-edge", "arm", "arm"⟩,
     ⟨"multiarch/alpine:arm64-edge", "arm64", "aarch64"⟩])]

/-! ### Version computation (Dockerfile.py lines 46-50)

`__version__ = v.read().strip().replace('release/', 'release-')`. -/

/-- Python `str.strip()` whitespace characters (ASCII subset). -/
def isPySpace (c : Char) : Bool :=
  c == ' ' || c == '\t' || c == '\n' || c == '\r' || c == '\x0B' || c == '\x0C'

/-- Python `str.strip()`: remove leading and trailing whitespace. -/
def pyStrip (l : List Char) : List Char :=
  ((l.dropWhile isPySpace).reverse.dropWhile isPySpace).reverse

/-- The pattern `'release/'` of the `str.replace` call. -/
def relPat : List Char := ['r', 'e', 'l', 'e', 'a', 's', 'e', '/']

/-- The replacement `'release-'` of the `str.replace` call. -/
def relRep : List Char := ['r', 'e', 'l', 'e', 'a', 's', 'e', '-']

/-- Boolean list-prefix test (our own, to keep everything
kernel-computable). -/
def isPre : List Char → List Char → Bool
  | [], _ => true
  | _ :: _, [] => false
  | a :: as, b :: bs => a == b && isPre as bs

/-- Fueled worker for Python's `str.replace('release/', 'release-')`:
scan left to right, on a match emit the replacement and continue after
the matched text, otherwise keep the character.  The fuel is only a
structural-termination device; `replaceRelF_stable` shows any fuel
`≥ length` gives the same answer. -/
def replaceRelF : Nat → List Char → List Char
  | _, [] => []
  | 0, l => l
  | fuel + 1, c :: rest =>
    if isPre relPat (c :: rest) then relRep ++ replaceRelF fuel (rest.drop 7)
    else c :: replaceRelF fuel rest

/-- Python `s.replace('release/', 'release-')` (all non-overlapping
occurrences, left to right). -/
def replaceRel (l : List Char) : List Char := replaceRelF l.length l

/-- `__version__` of Dockerfile.py (lines 46-50) as a function of the
raw VERSION-file content: strip surrounding whitespace, then replace
every `release/` with `release-`. -/
def versionFromRaw (raw : String) : String := ⟨replaceRel (pyStrip raw.data)⟩

/-- `'release/' occurs somewhere in the list' as a Boolean. -/
def hasRelPat : List Char → Bool
  | [] => false
  | c :: rest => isPre relPat (c :: rest) || hasRelPat rest

/-! ### Template rendering

`Dockerfile.template` is not part of the repository's Python source; a
template is modelled as its parse: a sequence of literal chunks and
variable substitutions `{{ pihole.key }}`, which Jinja2 renders by
looking the key up in the context (an undefined key renders as the
empty string). -/

/-- One chunk of a parsed template. -/
inductive Chunk where
  | lit (s : String)
  | var (key : String)
deriving DecidableEq, Repr

/-- A parsed template. -/
abbrev Template := List Chunk

/-- Lookup in an association list built by Python `dict(list(...))`:
the LAST binding of a key wins. -/
def dictLookup (ctx : List (String × String)) (k : String) : Option String :=
  (ctx.reverse.find? (fun p => p.1 == k)).map Prod.snd

/-- Render a template against a context. -/
def render (t : Template) (ctx : List (String × String)) : String :=
  match t with
  | [] => ""
  | Chunk.lit s :: rest => s ++ render rest ctx
  | Chunk.var k :: rest => (dictLookup ctx k).getD "" ++ render rest ctx

/-! ### Command-line arguments (docopt) -/

/-- The docopt argument dictionary of Dockerfile.py (usage lines 4-15).
`os`/`arch` are the (possibly defaulted) `--os`/`--arch` lists,
`hub_tag` the string value of `--hub_tag`, `verbose` is `-v`,
`timing` is `-t`. -/
structure Args where
  os : List String
  arch : List String
  hub_tag : String
  verbose : Bool
  timing : Bool
  no_build : Bool
  no_generate : Bool
  no_cache : Bool
deriving DecidableEq, Repr

/-- docopt's value for `--hub_tag`: the user's string if the flag is
given, otherwise the default taken verbatim from the usage text
`[default: None]`, i.e. the literal string "None" (docopt does not
interpret "None" specially). -/
def docoptHubTag (user : Option String) : String := user.getD "None"

/-- The docopt defaults of the usage text: `--os` defaults to
`alpine debian`, `--arch` to `amd64 armel armhf arm64`, `--hub_tag` to
the string "None", every toggle to false. -/
def defaultArgs : Args :=
  { os := ["alpine", "debian"],
    arch := ["amd64", "armel", "armhf", "arm64"],
    hub_tag := docoptHubTag none,
    verbose := false, timing := false,
    no_build := false, no_generate := false, no_cache := false }

/-- Python truthiness of `args['--hub_tag']` (a string): nonempty. -/
def hubTagTruthy (a : Args) : Bool := a.hub_tag ≠ ""

/-! ### Generation phase (Dockerfile.py lines 94-120)

`generate_dockerfiles` walks the `images` table in order and, for each
record whose OS is in `--os` and whose `arch` is in `--arch`, renders
the template against the merged context and writes the result to
`Dockerfile_<arch>`. -/

/-- The dict literal `{'base': ..., 'arch': ..., 's6arch': ...}` of one
image record, in key insertion order. -/
def imagePairs (im : ImageRecord) : List (String × String) :=
  [("base", im.base), ("arch", im.arch), ("s6arch", im.s6arch)]

/-- Line 105: `s6arch = image['s6arch'] if image['s6arch'] else
image['arch']` (Python string truthiness: nonempty). -/
def s6archOf (im : ImageRecord) : String :=
  if im.s6arch ≠ "" then im.s6arch else im.arch

/-- The `merged_data` dict of lines 106-113, as the concatenated
association list (later entries override earlier ones on lookup, as
`dict()` does). -/
def mergedPairs (version osName : String) (im : ImageRecord) :
    List (String × String) :=
  [("version", version), ("os", osName)] ++ base_vars ++
    os_base_vars osName ++ imagePairs im ++ [("s6arch", s6archOf im)]

/-- The (OS, record) pairs the nested loops of lines 99-104 actually
process, in loop order, for a given configuration table. -/
def selectedRecordsT (tbl : List (String × List ImageRecord)) (a : Args) :
    List (String × ImageRecord) :=
  tbl.flatMap (fun p =>
    (p.2.filter (fun im => a.os.contains p.1 && a.arch.contains im.arch)).map
      (fun im => (p.1, im)))

/-- The (OS, record) pairs processed against the program's `images`
table. -/
def selectedRecords (a : Args) : List (String × ImageRecord) :=
  selectedRecordsT images a

/-- The single file write of lines 118-120 for one record: the name
`'Dockerfile_{}'.format(image['arch'])` and the rendered bytes. -/
def writeFor (version : String) (t : Template) (osName : String)
    (im : ImageRecord) : String × String :=
  ("Dockerfile_" ++ im.arch, render t (mergedPairs version osName im))

/-- All file writes of the generation loop, in order, for a given
table. -/
def generateWritesT (tbl : List (String × List ImageRecord))
    (version : String) (t : Template) (a : Args) : List (String × String) :=
  (selectedRecordsT tbl a).map (fun p => writeFor version t p.1 p.2)

/-- All file writes of the generation loop against `images`. -/
def generateWrites (version : String) (t : Template) (a : Args) :
    List (String × String) :=
  generateWritesT images version t a

/-- Errors the script can die of: the module-level `open(VERSION)` and
the in-loop `get_template` raise if the file is absent; nothing catches
them, so the interpreter exits with a traceback. -/
inductive PyErr where
  | versionFileMissing
  | templateMissing
deriving DecidableEq, Repr

/-- `generate_dockerfiles` (lines 94-120) for a given table: skipped
entirely under `--no-generate`; otherwise it performs the writes.  The
template is fetched inside the loop, so a missing template only raises
once some record is actually selected. -/
def generate_dockerfilesT (tbl : List (String × List ImageRecord))
    (version : String) (tmpl : Option Template) (a : Args) :
    Except PyErr (List (String × String)) :=
  if a.no_generate then .ok []
  else
    match selectedRecordsT tbl a, tmpl with
    | [], _ => .ok []
    | _ :: _, none => .error .templateMissing
    | _ :: _, some t => .ok (generateWritesT tbl version t a)

/-- `generate_dockerfiles` against the program's `images` table. -/
def generate_dockerfiles (version : String) (tmpl : Option Template)
    (a : Args) : Except PyErr (List (String × String)) :=
  generate_dockerfilesT images version tmpl a

/-! ### Build phase (Dockerfile.py lines 123-168) -/

/-- `repo_tag = '{}:{}_{}_{}'.format(docker_repo, __version__, os, arch)`
(line 149). -/
def repoTag (docker_repo version osName arch : String) : String :=
  docker_repo ++ ":" ++ version ++ "_" ++ osName ++ "_" ++ arch

/-- The `time` string of lines 152-154. -/
def timePart (a : Args) : String := if a.timing then "time " else ""

/-- The `no_cache` string of lines 155-157. -/
def noCachePart (a : Args) : String := if a.no_cache then "--no-cache" else ""

/-- The `build_command` string of lines 158-159. -/
def buildCommandStr (version osName arch : String) (a : Args) : String :=
  let rt := repoTag "pihole" version osName arch
  timePart a ++ "docker build " ++ noCachePart a ++
    " --pull --cache-from=\"" ++ ("pihole/" ++ rt) ++ "," ++ rt ++
    "\" -f " ++ ("Dockerfile_" ++ arch) ++ " -t " ++ rt ++ " ."

/-- The `hub_tag_command` string of lines 165-166. -/
def hubTagCommandStr (version osName arch : String) (a : Args) : String :=
  timePart a ++ "docker tag " ++ repoTag "pihole" version osName arch ++
    " " ++ a.hub_tag

/-- An external invocation, tagged by which of the two
`run_and_stream_command_output` call sites issued it (line 161: the
docker build; line 168: the docker tag). -/
inductive Cmd where
  | build (s : String)
  | tag (s : String)
deriving DecidableEq, Repr

/-- The command string of an invocation. -/
def Cmd.str : Cmd → String
  | .build s => s
  | .tag s => s

/-- Is this the `docker build` call site? -/
def Cmd.isBuildCall : Cmd → Bool
  | .build _ => true
  | .tag _ => false

/-- Is this the `docker tag` call site? -/
def Cmd.isTagCall : Cmd → Bool
  | .build _ => false
  | .tag _ => true

/-- The external invocations of one `build(...)` call (lines 147-168):
always the build command, then the tag command exactly when
`args['--hub_tag']` is truthy. -/
def buildPairCmds (version osName arch : String) (a : Args) : List Cmd :=
  [Cmd.build (buildCommandStr version osName arch a)] ++
    (if hubTagTruthy a then [Cmd.tag (hubTagCommandStr version osName arch a)]
     else [])

/-- `build_dockerfiles` (lines 123-130): skipped under `--no-build`;
otherwise `build` is called once for every element of the cross-product
of the `--os` list and the `--arch` list, in order. -/
def build_dockerfiles (version : String) (a : Args) : List Cmd :=
  if a.no_build then []
  else a.os.flatMap (fun osName =>
    a.arch.flatMap (fun arch => buildPairCmds version osName arch a))

/-- The external world: the VERSION file content (if present), the
template file (if present, parsed), and for each command string its
exit code and its streamed standard output. -/
structure Env where
  versionRaw : Option String
  template : Option Template
  rc : String → Int
  cmdStdout : String → List String

/-- Console lines of `run_and_stream_command_output` (lines 133-144):
`print("Running", command)`, the streamed subprocess output when `-v`
is set, and on a nonzero exit code the (placeholder-less) error line
plus `print(build_result.stderr)`, which prints `None` because stderr
was redirected to stdout. -/
def run_and_stream_output (env : Env) (a : Args) (c : String) : List String :=
  ("Running " ++ c) ::
    ((if a.verbose then env.cmdStdout c else []) ++
      (if env.rc c ≠ 0 then ["     ::: Error running", "None"] else []))

/-- Console lines of one `build(...)` call (lines 147-168), in print
order. -/
def buildPairOutput (env : Env) (version osName arch : String) (a : Args) :
    List String :=
  let rt := repoTag "pihole" version osName arch
  let bc := buildCommandStr version osName arch a
  [" ::: Building " ++ rt,
   " ::: Building " ++ ("Dockerfile_" ++ arch) ++ " into " ++ rt] ++
  run_and_stream_output env a bc ++
  (if a.verbose then [bc ++ " \n"] else []) ++
  (if hubTagTruthy a then
    (" ::: Tagging " ++ rt ++ " into " ++ a.hub_tag) ::
      run_and_stream_output env a (hubTagCommandStr version osName arch a)
   else [])

/-- Console lines of the generation phase that the script itself prints
(the skip message of line 96). -/
def generatePhaseOutput (a : Args) : List String :=
  if a.no_generate then [" ::: Skipping Dockerfile generation"] else []

/-- Console lines of the build phase (the skip message of line 125, or
the per-pair output). -/
def buildPhaseOutput (env : Env) (version : String) (a : Args) : List String :=
  if a.no_build then [" ::: Skipping Dockerfile building"]
  else a.os.flatMap (fun osName =>
    a.arch.flatMap (fun arch => buildPairOutput env version osName arch a))

/-- Observable result of a run that did not die of an exception. -/
structure RunResult where
  writes : List (String × String)
  commands : List Cmd
  output : List String
deriving DecidableEq, Repr

/-- The whole program (`__main__`, lines 171-177, plus the module-level
VERSION read of lines 46-50, which happens first): read the version,
run the generation phase, then the build phase.  An uncaught exception
(missing VERSION or template file) aborts the run. -/
def runProgram (env : Env) (a : Args) : Except PyErr RunResult :=
  match env.versionRaw with
  | none => .error .versionFileMissing
  | some raw =>
    let version := versionFromRaw raw
    match generate_dockerfiles version env.template a with
    | .error e => .error e
    | .ok ws =>
      .ok { writes := ws,
            commands := build_dockerfiles version a,
            output := generatePhaseOutput a ++ buildPhaseOutput env version a }

/-- The process exit code: 0 on normal completion (the script never
calls `sys.exit`), nonzero when the interpreter dies of an uncaught
exception. -/
def exitCode : Except PyErr RunResult → Nat
  | .ok _ => 0
  | .error _ => 1

/-- Replay a list of file writes (name, content) on a file system,
later writes overwriting earlier ones. -/
def applyWrites (ws : List (String × String)) (fs : String → Option String) :
    String → Option String :=
  ws.foldl (fun acc w => fun n => if n = w.1 then some w.2 else acc n) fs

/-- Cross-product of two string lists, in nested-loop order. -/
def crossPairs (l1 l2 : List String) : List (String × String) :=
  l1.flatMap (fun x => l2.map (fun y => (x, y)))

/-- The mutable program state visible to the phases: the module-level
configuration table, loaded once before `__main__` runs.  Each phase
receives the state and returns it; the script contains no assignment
to `images`, so each phase returns it unchanged. -/
structure ProgramState where
  table : List (String × List ImageRecord)
deriving DecidableEq, Repr

/-- The generation phase with the table threaded through as state. -/
def generatePhaseSt (st : ProgramState) (version : String)
    (tmpl : Option Template) (a : Args) :
    ProgramState × Except PyErr (List (String × String)) :=
  (st, generate_dockerfilesT st.table version tmpl a)

/-- The build phase with the table threaded through as state
(`build_dockerfiles` and `build` never read nor write the table). -/
def buildPhaseSt (st : ProgramState) (version : String) (a : Args) :
    ProgramState × List Cmd :=
  (st, build_dockerfiles version a)

/-- The whole program with the configuration table threaded through as
explicit state. -/
def runProgramSt (st : ProgramState) (env : Env) (a : Args) :
    ProgramState × Except PyErr RunResult :=
  match env.versionRaw with
  | none => (st, .error .versionFileMissing)
  | some raw =>
    let version := versionFromRaw raw
    let g := generatePhaseSt st version env.template a
    match g.2 with
    | .error e => (g.1, .error e)
    | .ok ws =>
      let b := buildPhaseSt g.1 version a
      (b.1, .ok { writes := ws,
                  commands := b.2,
                  output := generatePhaseOutput a ++ buildPhaseOutput env version a })

/-! ### Concrete inputs used in counterexamples and witnesses -/

/-- A small parsed template: `FROM {{ pihole.base }}`. -/
def demoTemplate : Template := [Chunk.lit "FROM ", Chunk.var "base"]

/-- The amd64 debian record of the `images` table. -/
def debianAmd64 : ImageRecord := ⟨"pihole/debian-base:latest", "amd64", "amd64"⟩

/-- The amd64 alpine record of the `images` table. -/
def alpineAmd64 : ImageRecord := ⟨"alpine:edge", "amd64", "amd64"⟩

/-- `--os debian --os alpine --arch amd64 --no-build`: both OSes share
the amd64 architecture. -/
def c1Args : Args :=
  { os := ["debian", "alpine"], arch := ["amd64"], hub_tag := "",
    verbose := false, timing := false,
    no_build := true, no_generate := false, no_cache := false }

/-- A run without `--hub_tag` on the command line (docopt default) for
one (OS, arch) pair, with generation skipped. -/
def c3Args : Args :=
  { os := ["debian"], arch := ["amd64"], hub_tag := docoptHubTag none,
    verbose := false, timing := false,
    no_build := false, no_generate := true, no_cache := false }

/-- Both skip flags set (for exercising the frame property). -/
def c4Args : Args :=
  { os := ["debian"], arch := ["amd64"], hub_tag := "",
    verbose := false, timing := false,
    no_build := true, no_generate := true, no_cache := false }

/-- One (OS, arch) pair, build enabled, generation skipped, no hub
tag. -/
def c5Args : Args :=
  { os := ["debian"], arch := ["amd64"], hub_tag := "",
    verbose := false, timing := false,
    no_build := false, no_generate := true, no_cache := false }

/-- An environment where both files exist and every external command
succeeds. -/
def okEnv : Env :=
  { versionRaw := some "v5.0", template := some demoTemplate,
    rc := fun _ => 0, cmdStdout := fun _ => [] }

/-- An environment where both files exist and every external command
exits with status 1. -/
def failEnv : Env :=
  { versionRaw := some "v5.0", template := some demoTemplate,
    rc := fun _ => 1, cmdStdout := fun _ => [] }

/-- The run result of `runProgram okEnv c4Args` (both phases
skipped). -/
def c4Res : RunResult :=
  { writes := [], commands := [],
    output := [" ::: Skipping Dockerfile generation",
               " ::: Skipping Dockerfile building"] }

/-- The single docker build invocation of the `c5Args` run. -/
def c5Cmd : Cmd := Cmd.build (buildCommandStr "v5.0" "debian" "amd64" c5Args)

/-- The run result of `runProgram failEnv c5Args`. -/
def c5Res : RunResult :=
  { writes := [], commands := [c5Cmd],
    output := " ::: Skipping Dockerfile generation" ::
      buildPairOutput failEnv "v5.0" "debian" "amd64" c5Args }

/-- Flags differing from `c7ArgsB` in everything except the OS and
architecture selection and the generation toggle. -/
def c7ArgsA : Args :=
  { os := ["debian"], arch := ["amd64"], hub_tag := "x",
    verbose := true, timing := true,
    no_build := false, no_generate := false, no_cache := true }

/-- Same selection as `c7ArgsA`, different unrelated flags. -/
def c7ArgsB : Args :=
  { os := ["debian"], arch := ["amd64"], hub_tag := docoptHubTag none,
    verbose := false, timing := false,
    no_build := true, no_generate := false, no_cache := false }

/-! ## Helper lemmas about the `release/` replacement -/

/-- Any fuel at least the list length gives the same replacement. -/
theorem replaceRelF_stable : ∀ (n m : Nat) (l : List Char),
    l.length ≤ n → l.length ≤ m → replaceRelF n l = replaceRelF m l := by
  intro n
  induction n with
  | zero =>
    intro m l hn _
    obtain rfl : l = [] := List.length_eq_zero.mp (Nat.le_zero.mp hn)
    simp [replaceRelF]
  | succ n ih =>
    intro m l hn hm
    cases l with
    | nil => simp [replaceRelF]
    | cons c rest =>
      cases m with
      | zero => simp at hm
      | succ m =>
        simp only [replaceRelF]
        by_cases hb : isPre relPat (c :: rest) = true
        · rw [if_pos hb, if_pos hb]
          congr 1
          refine ih m (rest.drop 7) ?_ ?_ <;> simp [List.length_drop] <;>
            simp [List.length_cons] at hn hm <;> omega
        · rw [if_neg hb, if_neg hb]
          congr 1
          refine ih m rest ?_ ?_ <;> simp [List.length_cons] at hn hm <;> omega

/-- Defining equation of `replaceRel` on the empty list. -/
theorem replaceRel_nil : replaceRel [] = [] := rfl

/-- Defining equation of `replaceRel` when the pattern matches at the
head: emit the replacement and continue after the matched text. -/
theorem replaceRel_cons_pat (c : Char) (rest : List Char)
    (hb : isPre relPat (c :: rest) = true) :
    replaceRel (c :: rest) = relRep ++ replaceRel (rest.drop 7) := by
  show replaceRelF (rest.length + 1) (c :: rest) = _
  simp only [replaceRelF]
  rw [if_pos hb]
  congr 1
  exact replaceRelF_stable _ _ _ (by simp [List.length_drop]) (le_refl _)

/-- Defining equation of `replaceRel` when the pattern does not match
at the head: keep the character. -/
theorem replaceRel_cons_keep (c : Char) (rest : List Char)
    (hb : ¬ isPre relPat (c :: rest) = true) :
    replaceRel (c :: rest) = c :: replaceRel rest := by
  show replaceRelF (rest.length + 1) (c :: rest) = _
  simp only [replaceRelF]
  rw [if_neg hb]
  rfl

/-- `isPre p l` is exactly `l = p ++ t` for some `t`. -/
theorem isPre_iff_append : ∀ (p l : List Char), isPre p l = true ↔ ∃ t, l = p ++ t := by
  intro p
  induction p with
  | nil => intro l; simp [isPre]
  | cons a as ih =>
    intro l
    cases l with
    | nil => simp [isPre]
    | cons b bs =>
      simp only [isPre, Bool.and_eq_true, beq_iff_eq, ih, List.cons_append,
        List.cons.injEq]
      constructor
      · rintro ⟨rfl, t, rfl⟩; exact ⟨t, rfl, rfl⟩
      · rintro ⟨t, rfl, rfl⟩; exact ⟨rfl, t, rfl⟩

/-- The suffixes of the pattern `release/`, enumerated. -/
theorem relPat_tails_eq : relPat.tails =
    [['r','e','l','e','a','s','e','/'], ['e','l','e','a','s','e','/'],
     ['l','e','a','s','e','/'], ['e','a','s','e','/'], ['a','s','e','/'],
     ['s','e','/'], ['e','/'], ['/'], []] := rfl

/-- No proper nonempty suffix of `release/` starts with `r`. -/
theorem suffixes_head_ne_r (x : Char) (p' : List Char)
    (hs : (x :: p') <:+ relPat) (hl : (x :: p').length < relPat.length) :
    (x == 'r') = false := by
  have hm : (x :: p') ∈ relPat.tails := (List.mem_tails _ _).mpr hs
  rw [relPat_tails_eq] at hm
  simp only [List.mem_cons, List.not_mem_nil, or_false] at hm
  rcases hm with h | h | h | h | h | h | h | h | h
  · exfalso; rw [h] at hl; simp [relPat] at hl
  case inr.inr.inr.inr.inr.inr.inr.inr => simp at h
  all_goals (injection h with h1 h2; subst h1; decide)

/-- If a proper suffix of the pattern is a prefix of the replaced
text, it was already a prefix of the original text: the replacement
`release-` can never supply the missing characters, because no proper
suffix of `release/` starts with `r`. -/
theorem isPre_suffix_of_replaceRel : ∀ (l p : List Char), p <:+ relPat →
    p.length < relPat.length → isPre p (replaceRel l) = true →
    isPre p l = true := by
  intro l
  induction l with
  | nil =>
    intro p _ _ h
    rwa [replaceRel_nil] at h
  | cons c rest ih =>
    intro p hs hl h
    by_cases hb : isPre relPat (c :: rest) = true
    · rw [replaceRel_cons_pat c rest hb] at h
      cases p with
      | nil => rfl
      | cons x p' =>
        have hx : (x == 'r') = false := suffixes_head_ne_r x p' hs hl
        rw [show relRep ++ replaceRel (rest.drop 7)
              = 'r' :: (['e','l','e','a','s','e','-'] ++ replaceRel (rest.drop 7)) from rfl] at h
        simp only [isPre, hx, Bool.false_and] at h
        exact absurd h Bool.false_ne_true
    · rw [replaceRel_cons_keep c rest hb] at h
      cases p with
      | nil => rfl
      | cons x p' =>
        simp only [isPre, Bool.and_eq_true] at h ⊢
        obtain ⟨hxc, hrest⟩ := h
        refine ⟨hxc, ?_⟩
        have hs' : p' <:+ relPat := (List.suffix_cons x p').trans hs
        have hl' : p'.length < relPat.length := by
          simp only [List.length_cons] at hl; omega
        exact ih p' hs' hl' hrest

/-- The pattern `release/` is never a prefix of a replaced text. -/
theorem isPre_relPat_replaceRel (l : List Char) :
    isPre relPat (replaceRel l) = false := by
  cases l with
  | nil => rfl
  | cons c rest =>
    by_cases hb : isPre relPat (c :: rest) = true
    · rw [replaceRel_cons_pat c rest hb]
      rw [show relRep ++ replaceRel (rest.drop 7)
            = 'r' :: 'e' :: 'l' :: 'e' :: 'a' :: 's' :: 'e' :: '-' :: replaceRel (rest.drop 7) from rfl]
      simp [relPat, isPre]
    · rw [replaceRel_cons_keep c rest hb]
      by_contra hcon
      rw [Bool.not_eq_false] at hcon
      apply hb
      rw [show relPat = 'r' :: ['e','l','e','a','s','e','/'] from rfl] at hcon ⊢
      simp only [isPre, Bool.and_eq_true] at hcon ⊢
      obtain ⟨hxc, hrest⟩ := hcon
      refine ⟨hxc, ?_⟩
      exact isPre_suffix_of_replaceRel rest ['e','l','e','a','s','e','/']
        ⟨['r'], rfl⟩ (by simp [relPat]) hrest

/-- Prepending the replacement `release-` cannot create an occurrence
of `release/`. -/
theorem hasRelPat_relRep_append (t : List Char) :
    hasRelPat (relRep ++ t) = hasRelPat t := by
  simp [relRep, relPat, hasRelPat, isPre]

/-- Fuel-bounded form of the main replacement property. -/
theorem hasRelPat_replaceRel_bounded : ∀ (n : Nat) (l : List Char), l.length ≤ n →
    hasRelPat (replaceRel l) = false := by
  intro n
  induction n with
  | zero =>
    intro l h
    obtain rfl : l = [] := List.length_eq_zero.mp (Nat.le_zero.mp h)
    rfl
  | succ n ih =>
    intro l hl
    cases l with
    | nil => rfl
    | cons c rest =>
      by_cases hb : isPre relPat (c :: rest) = true
      · rw [replaceRel_cons_pat c rest hb, hasRelPat_relRep_append]
        refine ih (rest.drop 7) ?_
        simp only [List.length_drop]
        simp only [List.length_cons] at hl
        omega
      · rw [replaceRel_cons_keep c rest hb]
        rw [hasRelPat]
        have h1 : isPre relPat (c :: replaceRel rest) = false := by
          have h2 := isPre_relPat_replaceRel (c :: rest)
          rwa [replaceRel_cons_keep c rest hb] at h2
        have h3 : hasRelPat (replaceRel rest) = false := by
          refine ih rest ?_
          simp only [List.length_cons] at hl
          omega
        rw [h1, h3]
        rfl

/-- The replaced text never contains `release/`. -/
theorem hasRelPat_replaceRel (l : List Char) : hasRelPat (replaceRel l) = false :=
  hasRelPat_replaceRel_bounded l.length l (le_refl _)

/-- `hasRelPat` really is occurrence of `release/` as a factor. -/
theorem hasRelPat_iff : ∀ l : List Char,
    hasRelPat l = true ↔ ∃ a b, l = a ++ relPat ++ b := by
  intro l
  induction l with
  | nil =>
    constructor
    · intro h; exact absurd h (by decide)
    · rintro ⟨a, b, hab⟩
      exfalso
      have hlen := congrArg List.length hab
      simp [relPat] at hlen
      omega
  | cons c rest ih =>
    rw [hasRelPat]
    simp only [Bool.or_eq_true, ih, isPre_iff_append]
    constructor
    · rintro (⟨t, ht⟩ | ⟨a, b, hab⟩)
      · exact ⟨[], t, by simp [ht]⟩
      · exact ⟨c :: a, b, by simp [hab]⟩
    · rintro ⟨a, b, hab⟩
      cases a with
      | nil => left; exact ⟨b, by simpa using hab⟩
      | cons a0 as =>
        right
        simp only [List.cons_append, List.cons.injEq] at hab
        exact ⟨as, b, hab.2⟩

/-- The computed version string never contains `release/` as a factor,
whatever the VERSION file contained. -/
theorem version_no_release_slash (raw : String) (a b : List Char) :
    (versionFromRaw raw).data ≠ a ++ relPat ++ b := by
  intro h
  have h1 : hasRelPat (versionFromRaw raw).data = true :=
    (hasRelPat_iff _).mpr ⟨a, b, h⟩
  have h2 : hasRelPat (versionFromRaw raw).data = false :=
    hasRelPat_replaceRel (pyStrip raw.data)
  rw [h1] at h2
  exact absurd h2 (by decide)

/-! ## Helper lemmas about the build phase -/

/-- Only the docker-build invocation of one `build(...)` call survives
the build-call filter. -/
theorem filter_isBuildCall_pair (version osName arch : String) (a : Args) :
    (buildPairCmds version osName arch a).filter Cmd.isBuildCall
      = [Cmd.build (buildCommandStr version osName arch a)] := by
  cases h : hubTagTruthy a <;>
    simp [buildPairCmds, h, Cmd.isBuildCall, List.filter]

/-- One docker-build invocation per architecture of the inner loop. -/
theorem filter_isBuildCall_arches (version osName : String) (a : Args) :
    ∀ l2 : List String,
      (l2.flatMap (fun arch => buildPairCmds version osName arch a)).filter Cmd.isBuildCall
        = l2.map (fun arch => Cmd.build (buildCommandStr version osName arch a)) := by
  intro l2
  induction l2 with
  | nil => rfl
  | cons y ys ih =>
    simp only [List.flatMap_cons, List.filter_append, ih, List.map_cons,
      filter_isBuildCall_pair]
    rfl

/-- One docker-build invocation per element of the cross-product of
the two loops. -/
theorem filter_isBuildCall_flat (version : String) (a : Args) :
    ∀ l1 l2 : List String,
      (l1.flatMap (fun osName => l2.flatMap (fun arch => buildPairCmds version osName arch a))).filter Cmd.isBuildCall
        = (crossPairs l1 l2).map (fun p => Cmd.build (buildCommandStr version p.1 p.2 a)) := by
  intro l1 l2
  induction l1 with
  | nil => rfl
  | cons x xs ih =>
    simp only [List.flatMap_cons, List.filter_append, ih, crossPairs,
      List.map_append, filter_isBuildCall_arches, List.map_map]
    rfl

/-- A failing command always prints the error line. -/
theorem errorLine_mem_stream (env : Env) (a : Args) (c : String)
    (hrc : env.rc c ≠ 0) :
    "     ::: Error running" ∈ run_and_stream_output env a c := by
  simp [run_and_stream_output, hrc]

/-- A failing command of one `build(...)` call puts the error line into
that call's console output. -/
theorem errorLine_mem_pairOutput (env : Env) (version osName arch : String)
    (a : Args) (c : Cmd) (hc : c ∈ buildPairCmds version osName arch a)
    (hrc : env.rc c.str ≠ 0) :
    "     ::: Error running" ∈ buildPairOutput env version osName arch a := by
  cases hh : hubTagTruthy a with
  | false =>
    rw [buildPairCmds, hh] at hc
    simp at hc
    subst hc
    have hmem := errorLine_mem_stream env a (buildCommandStr version osName arch a)
      (by simpa [Cmd.str] using hrc)
    simp only [buildPairOutput, hh, List.append_assoc, List.mem_append,
      List.mem_cons]
    tauto
  | true =>
    rw [buildPairCmds, hh] at hc
    simp [List.mem_cons] at hc
    rcases hc with rfl | rfl
    · have hmem := errorLine_mem_stream env a (buildCommandStr version osName arch a)
        (by simpa [Cmd.str] using hrc)
      simp only [buildPairOutput, hh, List.append_assoc, List.mem_append,
        List.mem_cons]
      tauto
    · have hmem := errorLine_mem_stream env a (hubTagCommandStr version osName arch a)
        (by simpa [Cmd.str] using hrc)
      simp only [buildPairOutput, hh, List.append_assoc, List.mem_append,
        List.mem_cons]
      tauto

/-- Dissection of a successful run into its three observables. -/
theorem runProgram_ok_elim (env : Env) (a : Args) (res : RunResult)
    (h : runProgram env a = .ok res) :
    ∃ raw, env.versionRaw = some raw ∧
      generate_dockerfiles (versionFromRaw raw) env.template a = .ok res.writes ∧
      res.commands = build_dockerfiles (versionFromRaw raw) a ∧
      res.output = generatePhaseOutput a ++ buildPhaseOutput env (versionFromRaw raw) a := by
  rcases hv : env.versionRaw with _ | raw
  · simp [runProgram, hv] at h
  · refine ⟨raw, rfl, ?_⟩
    simp only [runProgram, hv] at h
    rcases hg : generate_dockerfiles (versionFromRaw raw) env.template a with e | ws
    · rw [hg] at h; simp at h
    · rw [hg] at h
      simp only [Except.ok.injEq] at h
      subst h
      exact ⟨rfl, rfl, rfl⟩

/-- The generation loop only reads the OS and architecture selection
of the argument dictionary. -/
theorem selectedRecordsT_congr (tbl : List (String × List ImageRecord))
    (a1 a2 : Args) (hos : a1.os = a2.os) (harch : a1.arch = a2.arch) :
    selectedRecordsT tbl a1 = selectedRecordsT tbl a2 := by
  simp [selectedRecordsT, hos, harch]

/-! ## The claims -/

/-- C1, counterexample: with `--os debian --os alpine --arch amd64`
the loop selects two distinct (OS, architecture) pairs of the
configuration table but generates only one distinct file name, so the
set of generated Dockerfile names cannot equal the restricted
{OS, arch} cross-product with one name per pair: the name is not a
one-to-one function of the pair. -/
theorem claim1_counterexample :
    ((generateWrites "v5.0" demoTemplate c1Args).map Prod.fst).dedup.length = 1 ∧
    ((selectedRecords c1Args).map (fun p => (p.1, p.2.arch))).dedup.length = 2 := by
  decide

/-- C1, amended: for every run with a fixed `--os`/`--arch` selection
and generation not skipped, the list of generated file names equals
`Dockerfile_<arch>` taken over the configuration-table records whose
OS is selected and whose architecture is selected; the name depends on
the architecture alone, so pairs sharing an architecture share one
file name. -/
theorem claim1_amended_names (version : String) (t : Template) (a : Args)
    (ws : List (String × String)) (hng : a.no_generate = false)
    (h : generate_dockerfiles version (some t) a = .ok ws) :
    ws.map Prod.fst = (selectedRecords a).map (fun p => "Dockerfile_" ++ p.2.arch) := by
  simp only [generate_dockerfiles, generate_dockerfilesT, hng, Bool.false_eq_true,
    if_false] at h
  rcases hs : selectedRecordsT images a with _ | ⟨p, rest⟩
  · rw [hs] at h
    simp only [Except.ok.injEq] at h
    subst h
    simp [selectedRecords, hs]
  · rw [hs] at h
    simp only [Except.ok.injEq] at h
    subst h
    simp [generateWritesT, writeFor, selectedRecords, List.map_map, Function.comp]

/-- C1, witness for the amended theorem at a concrete run. -/
theorem claim1_amended_witness :
    c1Args.no_generate = false ∧
    generate_dockerfiles "v5.0" (some demoTemplate) c1Args
      = .ok (generateWrites "v5.0" demoTemplate c1Args) ∧
    (generateWrites "v5.0" demoTemplate c1Args).map Prod.fst
      = (selectedRecords c1Args).map (fun p => "Dockerfile_" ++ p.2.arch) :=
  ⟨rfl, rfl,
   claim1_amended_names "v5.0" demoTemplate c1Args _ rfl rfl⟩

/-- C2: for every run with build not skipped, the docker-build call
site is invoked exactly once per element of the cross-product of the
`--os` list and the `--arch` list, in loop order. -/
theorem claim2_build_per_pair (version : String) (a : Args)
    (hnb : a.no_build = false) :
    (build_dockerfiles version a).filter Cmd.isBuildCall
      = (crossPairs a.os a.arch).map
          (fun p => Cmd.build (buildCommandStr version p.1 p.2 a)) := by
  simp only [build_dockerfiles, hnb, Bool.false_eq_true, if_false]
  exact filter_isBuildCall_flat version a a.os a.arch

/-- C2, witness at the docopt default selection (2 OSes times 4
architectures). -/
theorem claim2_witness :
    defaultArgs.no_build = false ∧
    (build_dockerfiles "v5.0" defaultArgs).filter Cmd.isBuildCall
      = (crossPairs defaultArgs.os defaultArgs.arch).map
          (fun p => Cmd.build (buildCommandStr "v5.0" p.1 p.2 defaultArgs)) :=
  ⟨rfl, claim2_build_per_pair "v5.0" defaultArgs rfl⟩

/-- C3: evaluation of the code at the failing input.  When `--hub_tag`
is NOT given on the command line, docopt assigns it the literal string
"None" taken from the usage text `[default: None]`; that string is
truthy in Python, so `build` still invokes the external tag command,
tagging the image as `None` — contradicting the claim (and the
script's evident intent) that no tag command runs without the flag. -/
theorem claim3_code_evaluation :
    docoptHubTag none = "None" ∧
    hubTagTruthy c3Args = true ∧
    build_dockerfiles "v5.0" c3Args
      = [Cmd.build (buildCommandStr "v5.0" "debian" "amd64" c3Args),
         Cmd.tag "docker tag pihole:v5.0_debian_amd64 None"] :=
  ⟨rfl, rfl, rfl⟩

/-- C4: in every successful run, `--no-generate` implies the
generation phase performs no file writes and `--no-build` implies the
build phase invokes no external command. -/
theorem claim4_skip_flags (env : Env) (a : Args) (res : RunResult)
    (h : runProgram env a = .ok res) :
    (a.no_generate = true → res.writes = []) ∧
    (a.no_build = true → res.commands = []) := by
  obtain ⟨raw, hv, hg, hcmd, hout⟩ := runProgram_ok_elim env a res h
  constructor
  · intro hng
    simp only [generate_dockerfiles, generate_dockerfilesT, hng, if_true] at hg
    simp only [Except.ok.injEq] at hg
    exact hg.symm
  · intro hnb
    rw [hcmd]
    simp [build_dockerfiles, hnb]

/-- C4, witness at a run with both skip flags set. -/
theorem claim4_witness :
    runProgram okEnv c4Args = .ok c4Res ∧
    ((c4Args.no_generate = true → c4Res.writes = []) ∧
     (c4Args.no_build = true → c4Res.commands = [])) :=
  ⟨rfl, claim4_skip_flags okEnv c4Args c4Res rfl⟩

/-- C5: whenever an external command of a run exits with a nonzero
status, the error line is printed to the console, and the program
still completes normally — its own exit code stays 0, so the failure
is reported, not propagated. -/
theorem claim5_failure_reported (env : Env) (a : Args) (res : RunResult)
    (c : Cmd) (h : runProgram env a = .ok res) (hc : c ∈ res.commands)
    (hrc : env.rc c.str ≠ 0) :
    "     ::: Error running" ∈ res.output ∧ exitCode (runProgram env a) = 0 := by
  refine ⟨?_, by rw [h]; rfl⟩
  obtain ⟨raw, hv, hg, hcmd, hout⟩ := runProgram_ok_elim env a res h
  rw [hcmd] at hc
  rw [hout]
  rcases hnb : a.no_build with _ | _
  case true => rw [build_dockerfiles, hnb] at hc; simp at hc
  case false =>
    rw [build_dockerfiles, hnb] at hc
    simp only [Bool.false_eq_true, if_false] at hc
    rw [List.mem_flatMap] at hc
    obtain ⟨osName, hos, hc2⟩ := hc
    rw [List.mem_flatMap] at hc2
    obtain ⟨arch, harch, hc3⟩ := hc2
    refine List.mem_append_right _ ?_
    rw [buildPhaseOutput, hnb]
    simp only [Bool.false_eq_true, if_false]
    rw [List.mem_flatMap]
    refine ⟨osName, hos, ?_⟩
    rw [List.mem_flatMap]
    refine ⟨arch, harch, ?_⟩
    exact errorLine_mem_pairOutput env (versionFromRaw raw) osName arch a c hc3 hrc

/-- C5, witness: a concrete run in which the docker build exits with
status 1. -/
theorem claim5_witness :
    runProgram failEnv c5Args = .ok c5Res ∧
    c5Cmd ∈ c5Res.commands ∧
    failEnv.rc c5Cmd.str ≠ 0 ∧
    ("     ::: Error running" ∈ c5Res.output ∧
      exitCode (runProgram failEnv c5Args) = 0) :=
  ⟨rfl, List.mem_cons_self _ _, by decide,
   claim5_failure_reported failEnv c5Args c5Res c5Cmd rfl
     (List.mem_cons_self _ _) (by decide)⟩

/-- C6: the run aborts exactly when the VERSION file is missing or the
template file is missing while some record is actually generated; and
the file writes and the external-command trace of a run are
independent of the exit codes and output of the external commands —
a failing command is never retried, skipped around, or allowed to
change what else the program does. -/
theorem claim6_failure_modes (env : Env) (a : Args) :
    (exitCode (runProgram env a) ≠ 0 ↔
      env.versionRaw = none ∨
        (a.no_generate = false ∧ selectedRecords a ≠ [] ∧ env.template = none)) ∧
    (∀ f g, (runProgram { env with rc := f, cmdStdout := g } a).map
          (fun r => (r.writes, r.commands))
        = (runProgram env a).map (fun r => (r.writes, r.commands))) := by
  constructor
  · rcases hv : env.versionRaw with _ | raw
    · simp [runProgram, hv, exitCode]
    · rcases hng : a.no_generate with _ | _
      case true =>
        simp [runProgram, hv, generate_dockerfiles, generate_dockerfilesT,
          hng, exitCode]
      case false =>
        rcases hs : selectedRecordsT images a with _ | ⟨p, rest⟩
        · simp [runProgram, hv, generate_dockerfiles, generate_dockerfilesT,
            hng, hs, exitCode, selectedRecords]
        · rcases ht : env.template with _ | t
          · simp [runProgram, hv, generate_dockerfiles, generate_dockerfilesT,
              hng, hs, ht, exitCode, selectedRecords]
          · simp [runProgram, hv, generate_dockerfiles, generate_dockerfilesT,
              hng, hs, ht, exitCode, selectedRecords]
  · intro f g
    rcases hv : env.versionRaw with _ | raw
    · simp [runProgram, hv]
    · simp only [runProgram, hv]
      rcases hg : generate_dockerfiles (versionFromRaw raw) env.template a with e | ws
      · simp [hg, Except.map]
      · simp [hg, Except.map]

/-- C7: template rendering is deterministic — two generation runs with
the same version string, the same configuration table, the same
template content and the same `--os`/`--arch` selection produce
byte-identical writes, whatever the other flags are. -/
theorem claim7_deterministic (version : String) (t : Template) (a1 a2 : Args)
    (hos : a1.os = a2.os) (harch : a1.arch = a2.arch)
    (h1 : a1.no_generate = false) (h2 : a2.no_generate = false) :
    generate_dockerfiles version (some t) a1
      = generate_dockerfiles version (some t) a2 := by
  have hsel : selectedRecordsT images a1 = selectedRecordsT images a2 :=
    selectedRecordsT_congr images a1 a2 hos harch
  have hw : generateWritesT images version t a1 = generateWritesT images version t a2 := by
    simp [generateWritesT, hsel]
  simp only [generate_dockerfiles, generate_dockerfilesT, h1, h2,
    Bool.false_eq_true, if_false]
  rw [hsel]
  rcases hs : selectedRecordsT images a2 with _ | ⟨p, rest⟩
  · rfl
  · simp only [Except.ok.injEq]
    exact hw

/-- C7, witness: two argument dictionaries differing in every flag
except the selection produce identical generation output. -/
theorem claim7_witness :
    c7ArgsA.os = c7ArgsB.os ∧ c7ArgsA.arch = c7ArgsB.arch ∧
    c7ArgsA.no_generate = false ∧ c7ArgsB.no_generate = false ∧
    generate_dockerfiles "v5.0" (some demoTemplate) c7ArgsA
      = generate_dockerfiles "v5.0" (some demoTemplate) c7ArgsB :=
  ⟨rfl, rfl, rfl, rfl,
   claim7_deterministic "v5.0" demoTemplate c7ArgsA c7ArgsB rfl rfl rfl rfl⟩

/-- C8: threading the configuration table through the run as explicit
state, every run returns the state it was given — generation, build
and tagging leave the table unchanged — and the run started from the
table loaded at program start is exactly `runProgram`. -/
theorem claim8_table_immutable (st : ProgramState) (env : Env) (a : Args) :
    (runProgramSt st env a).1 = st ∧
    (runProgramSt ⟨images⟩ env a).2 = runProgram env a := by
  constructor
  · rcases hv : env.versionRaw with _ | raw
    · simp [runProgramSt, hv]
    · simp only [runProgramSt, hv, generatePhaseSt, buildPhaseSt]
      rcases hg : generate_dockerfilesT st.table (versionFromRaw raw) env.template a with e | ws
      · simp [hg]
      · simp [hg]
  · rcases hv : env.versionRaw with _ | raw
    · simp [runProgramSt, runProgram, hv]
    · simp only [runProgramSt, runProgram, hv, generatePhaseSt, buildPhaseSt,
        generate_dockerfiles]
      rcases hg : generate_dockerfilesT images (versionFromRaw raw) env.template a with e | ws
      · simp [hg]
      · simp [hg]

/-- C9: the generated file name is `Dockerfile_` followed by the
record's architecture — a function of the architecture field alone —
and in the concrete run selecting debian and alpine at amd64 both
records are written to the one file `Dockerfile_amd64`, whose final
content is that of the record processed later (alpine), which differs
from the overwritten debian content. -/
theorem claim9_overwrite :
    (∀ (version : String) (t : Template) (osName : String) (im : ImageRecord),
        (writeFor version t osName im).1 = "Dockerfile_" ++ im.arch) ∧
    (generateWrites "v5.0" demoTemplate c1Args).map Prod.fst
        = ["Dockerfile_amd64", "Dockerfile_amd64"] ∧
    applyWrites (generateWrites "v5.0" demoTemplate c1Args) (fun _ => none)
        "Dockerfile_amd64"
      = some (render demoTemplate (mergedPairs "v5.0" "alpine" alpineAmd64)) ∧
    render demoTemplate (mergedPairs "v5.0" "debian" debianAmd64)
      ≠ render demoTemplate (mergedPairs "v5.0" "alpine" alpineAmd64) :=
  ⟨fun _ _ _ _ => rfl, by decide, by decide, by decide⟩

/-- C10: the version string is the VERSION-file content with
surrounding whitespace stripped and every occurrence of `release/`
replaced by `release-`; in particular the result never contains
`release/` (see also `version_no_release_slash`), and the version
flows verbatim into the `repo:version_os_arch` image tag, so a
version of the form `release/X` never appears there. -/
theorem claim10_version_sanitized (raw : String) :
    versionFromRaw raw = ⟨replaceRel (pyStrip raw.data)⟩ ∧
    hasRelPat (versionFromRaw raw).data = false ∧
    (∀ repo osName arch : String,
      repoTag repo (versionFromRaw raw) osName arch
        = repo ++ ":" ++ versionFromRaw raw ++ "_" ++ osName ++ "_" ++ arch) :=
  ⟨rfl, hasRelPat_replaceRel (pyStrip raw.data), fun _ _ _ => rfl⟩

end DockerfilePy
